import Mathlib

/-!
# PayMCP payment coordination engine — verification development

The repository documents a payment coordination engine that gates MCP tool
calls behind payments.  The engine itself (coordination-mode state machines,
tool gate, state stores, providers) is described by the documentation; the
definitions below embed that engine shallowly in Lean, following the
documented data model and flows.  Theorems at the end of the file settle the
documented properties.
-/

namespace PayMCP

/-- Coordination modes, as listed by the documentation:
AUTO, RESUBMIT, ELICITATION, TWO_STEP, X402, PROGRESS, DYNAMIC_TOOLS. -/
inductive Mode where
  | AUTO
  | RESUBMIT
  | ELICITATION
  | TWO_STEP
  | X402
  | PROGRESS
  | DYNAMIC_TOOLS
deriving DecidableEq, Repr

/-- Provider-side payment status: `paid | pending | failed | cancelled`. -/
inductive ProviderStatus where
  | paid
  | pending
  | failed
  | cancelled
deriving DecidableEq, Repr

/-- Engine-local status of a `PendingInvocation`:
`pending, confirmed, failed, cancelled, expired`. -/
inductive RecordStatus where
  | pending
  | confirmed
  | failed
  | cancelled
  | expired
deriving DecidableEq, Repr

/-- A terminal record status: once `confirmed`, `failed`, `cancelled` or
`expired`, the record must not be resurrected. -/
def RecordStatus.isTerminal : RecordStatus → Bool
  | .pending => false
  | _ => true

/-- A terminal provider status: `paid`, `failed` or `cancelled`; polling must
stop immediately once one is observed. -/
def ProviderStatus.isTerminal : ProviderStatus → Bool
  | .pending => false
  | _ => true

/-- Tool-call arguments: an argument mapping captured verbatim
(ordering irrelevant, keys unique). -/
abbrev Args : Type := List (String × String)

/-- The argument fingerprint used by RESUBMIT: arguments compared as a
mapping, with key ordering irrelevant. -/
def argFingerprint (args : Args) : List (String × String) :=
  List.insertionSort (fun a b => a.1 ≤ b.1) args

/-- Modelled from the spec: `PendingInvocation`, the persisted record of one
suspended tool call awaiting payment (the engine code is not part of this
documentation repository).  `result` stores the tool body's output once the
record is finalized, so a duplicate finalization can return the prior
result. -/
structure PendingInvocation where
  paymentId : String
  toolName : String
  args : Args
  amount : Rat
  currency : String
  mode : Mode
  callerContext : String
  createdAt : Nat
  expiresAt : Nat
  status : RecordStatus
  result : Option String
deriving DecidableEq, Repr

/-- Build a fresh `pending` record at payment creation time. -/
def mkPending (paymentId toolName : String) (args : Args) (amount : Rat)
    (currency : String) (mode : Mode) (callerContext : String) : PendingInvocation :=
  { paymentId := paymentId
    toolName := toolName
    args := args
    amount := amount
    currency := currency
    mode := mode
    callerContext := callerContext
    createdAt := 0
    expiresAt := 0
    status := RecordStatus.pending
    result := none }

/-! ## State stores

The in-process store is a process-local association list (the docs describe a
process-local `Map`); the shared Redis-backed store is modelled as a
key-to-record mapping.  Both expose `put / get / delete` keyed by
`paymentId`. -/

/-- The in-memory state store: a process-local association list from
`paymentId` to `PendingInvocation`. -/
abbrev MemoryStateStore : Type := List (String × PendingInvocation)

/-- `put` for the in-memory store: overwrite any record under the key. -/
def memPut (s : MemoryStateStore) (k : String) (v : PendingInvocation) : MemoryStateStore :=
  (k, v) :: List.filter (fun p => p.1 ≠ k) s

/-- `get` for the in-memory store. -/
def memGet (s : MemoryStateStore) (k : String) : Option PendingInvocation :=
  Option.map Prod.snd (List.find? (fun p => p.1 = k) s)

/-- `delete` for the in-memory store. -/
def memDelete (s : MemoryStateStore) (k : String) : MemoryStateStore :=
  List.filter (fun p => p.1 ≠ k) s

/-- Modelled from the spec: the shared Redis-backed state store (the backend
client is external); modelled as the key-to-record mapping it maintains. -/
abbrev RedisStateStore : Type := String → Option PendingInvocation

/-- `put` for the Redis-backed store. -/
def redisPut (s : RedisStateStore) (k : String) (v : PendingInvocation) : RedisStateStore :=
  fun x => if x = k then some v else s x

/-- `get` for the Redis-backed store. -/
def redisGet (s : RedisStateStore) (k : String) : Option PendingInvocation :=
  s k

/-- `delete` for the Redis-backed store. -/
def redisDelete (s : RedisStateStore) (k : String) : RedisStateStore :=
  fun x => if x = k then none else s x

/-- The empty in-memory store. -/
def memEmpty : MemoryStateStore := []

/-- The empty Redis-backed store. -/
def redisEmpty : RedisStateStore := fun _ => none

/-! ## Provider contract -/

/-- Modelled from the spec: the uniform provider contract —
`createPayment(amount, currency, description) -> (paymentId, paymentUrlOrRequest)`
and the idempotent, side-effect-free read
`getPaymentStatus(paymentId) -> paid|pending|failed|cancelled`. -/
structure Provider where
  createPayment : Rat → String → String → String × String
  getPaymentStatus : String → ProviderStatus

/-! ## Call outcomes -/

/-- The structured results a gated call can surface to the caller:
the tool's real result, a payment-required failure carrying `paymentUrl`
and `paymentId`, the documented error taxonomy, or the `AlreadyProcessed`
idempotency indicator carrying the previously stored result. -/
inductive CallOutcome where
  | success (result : String)
  | paymentRequired (paymentUrl paymentId : String)
  | notYetPaid
  | invalidPaymentReference
  | paymentVerificationFailed
  | paymentFailed
  | paymentCancelled
  | paymentTimeout
  | alreadyProcessed (prior : String)
deriving DecidableEq, Repr

/-- Result of one engine step: the outcome surfaced to the caller, the state
store afterwards, and how many times the original tool body was executed
during the step. -/
structure StepResult where
  outcome : CallOutcome
  store : MemoryStateStore
  execCount : Nat
deriving Repr

/-- Finalize a record after the tool body ran: status `confirmed`, with the
body's result stored for idempotent duplicate handling. -/
def markConfirmed (p : PendingInvocation) (r : String) : PendingInvocation :=
  { p with status := RecordStatus.confirmed, result := some r }

/-- Mark a record's status without touching the rest. -/
def setStatus (p : PendingInvocation) (st : RecordStatus) : PendingInvocation :=
  { p with status := st }

/-- Mark the record under `pid` as `expired`, if present. -/
def markExpired (s : MemoryStateStore) (pid : String) : MemoryStateStore :=
  match memGet s pid with
  | none => s
  | some p => memPut s pid (setStatus p RecordStatus.expired)

/-! ## RESUBMIT mode -/

/-- Modelled from the spec: the RESUBMIT state machine (engine code is not in
this documentation repository).  The same tool is called twice.  First call
(no `payment_id`): create the payment, persist a `PendingInvocation`, fail
with a structured payment-required error carrying `paymentUrl` and
`paymentId`.  Second call (with `payment_id`): validate against the stored
record (same tool, same argument fingerprint, record still pending), check
`getPaymentStatus`, and on `paid` run the original body; mismatched or
already-terminal references fail with `InvalidPaymentReference`. -/
def resubmitCall (prov : Provider) (toolName : String) (amount : Rat)
    (currency : String) (body : Args → String) (args : Args)
    (paymentIdArg : Option String) (store : MemoryStateStore) : StepResult :=
  match paymentIdArg with
  | none =>
      let created := prov.createPayment amount currency toolName
      let pinv := mkPending created.1 toolName args amount currency Mode.RESUBMIT ""
      { outcome := CallOutcome.paymentRequired created.2 created.1
        store := memPut store created.1 pinv
        execCount := 0 }
  | some pid =>
      match memGet store pid with
      | none => { outcome := CallOutcome.invalidPaymentReference, store := store, execCount := 0 }
      | some pinv =>
          if pinv.toolName = toolName ∧ argFingerprint pinv.args = argFingerprint args ∧
              pinv.status = RecordStatus.pending then
            match prov.getPaymentStatus pid with
            | ProviderStatus.paid =>
                let r := body args
                { outcome := CallOutcome.success r
                  store := memPut store pid (markConfirmed pinv r)
                  execCount := 1 }
            | ProviderStatus.pending =>
                { outcome := CallOutcome.notYetPaid, store := store, execCount := 0 }
            | ProviderStatus.failed =>
                { outcome := CallOutcome.paymentFailed, store := memDelete store pid, execCount := 0 }
            | ProviderStatus.cancelled =>
                { outcome := CallOutcome.paymentCancelled, store := memDelete store pid, execCount := 0 }
          else
            { outcome := CallOutcome.invalidPaymentReference, store := store, execCount := 0 }

/-! ## TWO_STEP mode -/

/-- The structured payment-pending payload returned by the initiate half of
TWO_STEP: `message`, `payment_url`, `payment_id`, `next_step`. -/
structure TwoStepResponse where
  message : String
  paymentUrl : String
  paymentId : String
  nextStep : String
deriving DecidableEq, Repr

/-- The documented confirmation-tool naming pattern:
`confirm_{original_tool_name}_payment`. -/
def confirmToolName (toolName : String) : String :=
  "confirm_" ++ toolName ++ "_payment"

/-- Modelled from the spec: the TWO_STEP initiate half (engine code is not in
this documentation repository).  Create the payment, persist a
`PendingInvocation`, and return the structured payload naming the synthesized
confirmation tool. -/
def twoStepInitiate (prov : Provider) (toolName : String) (amount : Rat)
    (currency : String) (args : Args) (store : MemoryStateStore) :
    TwoStepResponse × MemoryStateStore :=
  let created := prov.createPayment amount currency toolName
  let pinv := mkPending created.1 toolName args amount currency Mode.TWO_STEP ""
  ({ message := "Payment required"
     paymentUrl := created.2
     paymentId := created.1
     nextStep := confirmToolName toolName },
   memPut store created.1 pinv)

/-- Modelled from the spec: the TWO_STEP confirmation tool (engine code is
not in this documentation repository).  Fetch the `PendingInvocation`, check
`getPaymentStatus`; on `paid` execute the original body and finalize; on
`pending` report not-yet-paid without side effects; on `failed`/`cancelled`
terminate the attempt and remove the record; on an already-`confirmed`
record return the previously stored result as `AlreadyProcessed`. -/
def twoStepConfirm (prov : Provider) (body : Args → String) (pid : String)
    (store : MemoryStateStore) : StepResult :=
  match memGet store pid with
  | none => { outcome := CallOutcome.invalidPaymentReference, store := store, execCount := 0 }
  | some pinv =>
      match pinv.status with
      | RecordStatus.pending =>
          match prov.getPaymentStatus pid with
          | ProviderStatus.paid =>
              let r := body pinv.args
              { outcome := CallOutcome.success r
                store := memPut store pid (markConfirmed pinv r)
                execCount := 1 }
          | ProviderStatus.pending =>
              { outcome := CallOutcome.notYetPaid, store := store, execCount := 0 }
          | ProviderStatus.failed =>
              { outcome := CallOutcome.paymentFailed, store := memDelete store pid, execCount := 0 }
          | ProviderStatus.cancelled =>
              { outcome := CallOutcome.paymentCancelled, store := memDelete store pid, execCount := 0 }
      | RecordStatus.confirmed =>
          { outcome := CallOutcome.alreadyProcessed (Option.getD pinv.result "")
            store := store
            execCount := 0 }
      | _ => { outcome := CallOutcome.invalidPaymentReference, store := store, execCount := 0 }

/-! ## X402 mode -/

/-- The on-chain facilitator boundary: verify a payment signature, and settle
it on-chain. -/
structure Facilitator where
  verify : String → Bool
  settle : String → Bool

/-- The engine accepts the payment signature from either the header-like
fields (`payment-signature` / `x-payment`) or the metadata field
(`_meta["x402/payment"]`); the header-like delivery is consulted first. -/
def pickSignature (headerSig metaSig : Option String) : Option String :=
  match headerSig with
  | some sig => some sig
  | none => metaSig

/-- Modelled from the spec: the X402 resubmission half (engine code is not in
this documentation repository).  A specialization of RESUBMIT whose proof is
a cryptographic payment signature, taken from either the header-like field or
the metadata field; the engine verifies and settles it through the provider's
facilitator and only then executes the tool body.  A signature that fails
verification is terminal for the attempt (`PaymentVerificationFailed`): the
record is marked `failed` and is not retryable. -/
def x402Resubmit (fac : Facilitator) (toolName : String) (body : Args → String)
    (args : Args) (pid : String) (headerSig metaSig : Option String)
    (store : MemoryStateStore) : StepResult :=
  match memGet store pid with
  | none => { outcome := CallOutcome.invalidPaymentReference, store := store, execCount := 0 }
  | some pinv =>
      if pinv.toolName = toolName ∧ argFingerprint pinv.args = argFingerprint args ∧
          pinv.status = RecordStatus.pending then
        match pickSignature headerSig metaSig with
        | none => { outcome := CallOutcome.invalidPaymentReference, store := store, execCount := 0 }
        | some sig =>
            if fac.verify sig then
              if fac.settle sig then
                let r := body args
                { outcome := CallOutcome.success r
                  store := memPut store pid (markConfirmed pinv r)
                  execCount := 1 }
              else
                { outcome := CallOutcome.paymentFailed, store := store, execCount := 0 }
            else
              { outcome := CallOutcome.paymentVerificationFailed
                store := memPut store pid (setStatus pinv RecordStatus.failed)
                execCount := 0 }
      else
        { outcome := CallOutcome.invalidPaymentReference, store := store, execCount := 0 }

/-! ## PROGRESS mode -/

/-- Result of a PROGRESS wait: the outcome, the store afterwards, the number
of tool-body executions, and the number of `getPaymentStatus` polls issued. -/
structure ProgressResult where
  outcome : CallOutcome
  store : MemoryStateStore
  execCount : Nat
  polls : Nat
deriving Repr

/-- Modelled from the spec: the PROGRESS polling loop (engine code is not in
this documentation repository).  At each tick, an active caller-side
cancellation aborts the wait (record marked `expired`, no poll issued);
otherwise the engine polls `getPaymentStatus`: `paid` executes the body and
finalizes, `failed`/`cancelled` terminate and remove the record, `pending`
continues to the next tick.  When the caller's timeout (the fuel) elapses
with no terminal status, the call fails with `PaymentTimeout` and the record
is marked `expired`. -/
def progressLoop (statusAt : Nat → ProviderStatus) (cancelAt : Nat → Bool)
    (body : Args → String) (pid : String) (args : Args) :
    Nat → Nat → MemoryStateStore → ProgressResult
  | 0, _, store =>
      { outcome := CallOutcome.paymentTimeout
        store := markExpired store pid
        execCount := 0
        polls := 0 }
  | fuel + 1, tick, store =>
      if cancelAt tick then
        { outcome := CallOutcome.paymentCancelled
          store := markExpired store pid
          execCount := 0
          polls := 0 }
      else
        match statusAt tick with
        | ProviderStatus.paid =>
            let r := body args
            { outcome := CallOutcome.success r
              store :=
                match memGet store pid with
                | none => store
                | some pinv => memPut store pid (markConfirmed pinv r)
              execCount := 1
              polls := 1 }
        | ProviderStatus.pending =>
            let res := progressLoop statusAt cancelAt body pid args fuel (tick + 1) store
            { res with polls := res.polls + 1 }
        | ProviderStatus.failed =>
            { outcome := CallOutcome.paymentFailed
              store := memDelete store pid
              execCount := 0
              polls := 1 }
        | ProviderStatus.cancelled =>
            { outcome := CallOutcome.paymentCancelled
              store := memDelete store pid
              execCount := 0
              polls := 1 }

/-! ## AUTO mode resolver -/

/-- Capability hints advertised by the calling client. -/
structure ClientCaps where
  supportsX402 : Bool
  supportsElicitation : Bool
deriving DecidableEq, Repr

/-- One configured provider entry, with whether it is an X402-capable
(on-chain) provider. -/
structure ProviderEntry where
  name : String
  x402Capable : Bool
deriving DecidableEq, Repr

/-- Modelled from the spec: the AUTO mode resolver (engine code is not in
this documentation repository).  Prefers X402 if an X402-capable provider is
configured and the caller advertises x402 support; else ELICITATION if the
caller advertises that capability; else falls back to RESUBMIT. -/
def resolveAutoMode (providers : List ProviderEntry) (caps : ClientCaps) : Mode :=
  if List.any providers (fun p => p.x402Capable) && caps.supportsX402 then
    Mode.X402
  else if caps.supportsElicitation then
    Mode.ELICITATION
  else
    Mode.RESUBMIT

/-- Modelled from the spec: AUTO resolution runs once per call, before any
state is persisted — it reads only the configured providers and the caller's
capability hints and leaves the state store untouched. -/
def autoResolve (providers : List ProviderEntry) (caps : ClientCaps)
    (store : MemoryStateStore) : Mode × MemoryStateStore :=
  (resolveAutoMode providers caps, store)

/-! ## Tool gate: price-spec validation -/

/-- `ToolPriceSpec`: static metadata attached to a tool — `amount` and
`currency`, or `acceptedPlans` for subscription gating. -/
inductive ToolPriceSpec where
  | price (amount : Rat) (currency : String)
  | subscription (acceptedPlans : List String)
deriving DecidableEq, Repr

/-- Result of registering a gated tool. -/
inductive RegistrationOutcome where
  | registered
  | invalidPriceSpec
deriving DecidableEq, Repr

/-- Modelled from the spec: the tool gate's registration-time validation
(engine code is not in this documentation repository).  Requires
`amount > 0` and a non-empty `currency` code, or a non-empty `acceptedPlans`
list for subscription gating; fails fast with `InvalidPriceSpec` otherwise. -/
def validatePriceSpec : ToolPriceSpec → RegistrationOutcome
  | ToolPriceSpec.price amount currency =>
      if 0 < amount ∧ currency ≠ "" then RegistrationOutcome.registered
      else RegistrationOutcome.invalidPriceSpec
  | ToolPriceSpec.subscription acceptedPlans =>
      if acceptedPlans = [] then RegistrationOutcome.invalidPriceSpec
      else RegistrationOutcome.registered

/-! ## Coinbase Commerce provider -/

/-- Coinbase Commerce charge statuses as reported by the provider API. -/
inductive CoinbaseChargeStatus where
  | NEW
  | PENDING
  | COMPLETED
  | EXPIRED
  | CANCELED
deriving DecidableEq, Repr

/-- Modelled from the spec: the Coinbase provider's mapping from charge
status to the engine's provider status (provider code is not in this
documentation repository).  `COMPLETED` is paid; `PENDING` is treated as paid
only when `confirmOnPending` is set, otherwise the engine keeps waiting for
full network confirmation. -/
def coinbaseStatusToProvider (confirmOnPending : Bool) :
    CoinbaseChargeStatus → ProviderStatus
  | CoinbaseChargeStatus.COMPLETED => ProviderStatus.paid
  | CoinbaseChargeStatus.PENDING =>
      if confirmOnPending then ProviderStatus.paid else ProviderStatus.pending
  | CoinbaseChargeStatus.NEW => ProviderStatus.pending
  | CoinbaseChargeStatus.EXPIRED => ProviderStatus.failed
  | CoinbaseChargeStatus.CANCELED => ProviderStatus.cancelled

/-- Coinbase provider configuration: the `confirmOnPending` option defaults
to `false`. -/
structure CoinbaseConfig where
  apiKey : String
  confirmOnPending : Bool
deriving DecidableEq, Repr

/-- Build a Coinbase configuration from the constructor arguments; an omitted
`confirmOnPending` defaults to `false`. -/
def mkCoinbaseConfig (apiKey : String) (confirmOnPendingArg : Option Bool) : CoinbaseConfig :=
  { apiKey := apiKey, confirmOnPending := Option.getD confirmOnPendingArg false }

/-- A Coinbase-backed engine provider, given the raw charge status the
provider API reports for each payment id. -/
def coinbaseProvider (cfg : CoinbaseConfig) (rawStatus : String → CoinbaseChargeStatus)
    (charge : Rat → String → String → String × String) : Provider :=
  { createPayment := charge
    getPaymentStatus := fun pid => coinbaseStatusToProvider cfg.confirmOnPending (rawStatus pid) }

/-! ## Concrete stubs used to exercise the engine on small inputs -/

/-- A stub `createPayment` issuing a fixed id and checkout URL. -/
def stubCreate : Rat → String → String → String × String :=
  fun _ _ _ => ("pay_1", "https://pay.example/c/pay_1")

/-- A provider stub reporting every payment as `paid`. -/
def stubProviderPaid : Provider :=
  { createPayment := stubCreate, getPaymentStatus := fun _ => ProviderStatus.paid }

/-- A provider stub reporting every payment as `pending`. -/
def stubProviderPending : Provider :=
  { createPayment := stubCreate, getPaymentStatus := fun _ => ProviderStatus.pending }

/-- A small tool body computing its result from the `prompt` argument. -/
def demoBody : Args → String :=
  fun args =>
    "Image generated for: " ++
      Option.getD (Option.map Prod.snd (List.find? (fun p => p.1 = "prompt") args)) ""

/-- The scenario arguments from the documentation. -/
def demoArgs : Args := [("prompt", "a dog")]

/-- A pending record as RESUBMIT's first call persists it. -/
def demoRecord : PendingInvocation :=
  mkPending "pay_1" "generate_image" demoArgs 1 "USD" Mode.RESUBMIT ""

/-- A pending record as TWO_STEP's initiate half persists it. -/
def demoTwoStepRecord : PendingInvocation :=
  mkPending "pay_1" "generate_image" demoArgs 1 "USD" Mode.TWO_STEP ""

/-- A facilitator stub accepting exactly the signature `sig_good`. -/
def stubFacilitator : Facilitator :=
  { verify := fun sig => sig = "sig_good", settle := fun _ => true }

/-- A pending record as the X402 first call persists it. -/
def demoX402Record : PendingInvocation :=
  mkPending "pay_1" "generate_image" demoArgs 1 "USD" Mode.X402 ""

/-- A pending record as PROGRESS persists it. -/
def demoProgressRecord : PendingInvocation :=
  mkPending "pay_1" "generate_image" demoArgs 1 "USD" Mode.PROGRESS ""

/-- A status stream under which the payment never leaves `pending`. -/
def stubAlwaysPending : Nat → ProviderStatus := fun _ => ProviderStatus.pending

/-- A status stream that flips to `paid` at the third poll. -/
def stubPaidAtTwo : Nat → ProviderStatus :=
  fun n => if n < 2 then ProviderStatus.pending else ProviderStatus.paid

/-- A caller that never cancels. -/
def stubNoCancel : Nat → Bool := fun _ => false

/-! ## State-store lemmas -/

theorem memGet_memPut_same (s : MemoryStateStore) (k : String) (v : PendingInvocation) :
    memGet (memPut s k v) k = some v := by
  simp [memGet, memPut]

theorem memGet_memDelete_same (s : MemoryStateStore) (k : String) :
    memGet (memDelete s k) k = none := by
  induction s with
  | nil => rfl
  | cons hd tl ih =>
      by_cases h : hd.1 = k
      · simp only [memDelete, memGet] at ih ⊢
        simp [List.filter, h, ih]
      · simp only [memDelete, memGet] at ih ⊢
        simp [List.filter, List.find?, h, ih]

/-! ## Claims -/

/-- C7: for both the in-memory state store and the shared Redis-backed state
store, and for every `paymentId` and record, `put` followed by `get` returns
a record equal to the one stored, and `delete` followed by `get` returns
absent. -/
theorem stateStore_roundTrip (s : MemoryStateStore) (r : RedisStateStore)
    (k : String) (v : PendingInvocation) :
    memGet (memPut s k v) k = some v ∧
    memGet (memDelete s k) k = none ∧
    redisGet (redisPut r k v) k = some v ∧
    redisGet (redisDelete r k) k = none := by
  refine ⟨memGet_memPut_same s k v, memGet_memDelete_same s k, ?_, ?_⟩
  · simp [redisGet, redisPut]
  · simp [redisGet, redisDelete]

/-- C4: at registration time the tool gate accepts every price spec with
`amount > 0` and a non-empty currency code, fails every spec with
`amount ≤ 0` or an empty currency with `InvalidPriceSpec`, and fails
subscription gating with an empty `acceptedPlans` list with
`InvalidPriceSpec`. -/
theorem toolGate_validatePriceSpec (amount : Rat) (currency : String) :
    (0 < amount ∧ currency ≠ "" →
      validatePriceSpec (ToolPriceSpec.price amount currency) =
        RegistrationOutcome.registered) ∧
    (amount ≤ 0 ∨ currency = "" →
      validatePriceSpec (ToolPriceSpec.price amount currency) =
        RegistrationOutcome.invalidPriceSpec) ∧
    validatePriceSpec (ToolPriceSpec.subscription []) =
      RegistrationOutcome.invalidPriceSpec := by
  refine ⟨?_, ?_, rfl⟩
  · intro h
    simp [validatePriceSpec, h.1, h.2]
  · intro h
    have hne : ¬(0 < amount ∧ currency ≠ "") := by
      rcases h with h | h
      · exact fun hc => absurd hc.1 (not_lt.mpr h)
      · exact fun hc => hc.2 h
    simp [validatePriceSpec, hne]

/-- C4 witness: the price spec `1 USD` registers, the price spec `0 USD`
fails with `InvalidPriceSpec`. -/
theorem toolGate_validatePriceSpec_witness :
    validatePriceSpec (ToolPriceSpec.price 1 "USD") = RegistrationOutcome.registered ∧
    validatePriceSpec (ToolPriceSpec.price 0 "USD") = RegistrationOutcome.invalidPriceSpec :=
  ⟨(toolGate_validatePriceSpec 1 "USD").1 ⟨by norm_num, by decide⟩,
   (toolGate_validatePriceSpec 0 "USD").2.1 (Or.inl (by norm_num))⟩

/-- C3: the AUTO resolver picks X402 exactly when an X402-capable provider is
configured and the caller advertises x402 support; otherwise it picks
ELICITATION exactly when the caller advertises that capability; in every
remaining case — X402 not selectable (whether or not an X402-capable
provider is configured) and elicitation not advertised — it resolves to
RESUBMIT and never to X402; and resolution persists no state. -/
theorem autoMode_resolution (providers : List ProviderEntry) (caps : ClientCaps)
    (store : MemoryStateStore) :
    (resolveAutoMode providers caps = Mode.X402 ↔
      List.any providers (fun p => p.x402Capable) = true ∧ caps.supportsX402 = true) ∧
    (¬(List.any providers (fun p => p.x402Capable) = true ∧ caps.supportsX402 = true) →
      (resolveAutoMode providers caps = Mode.ELICITATION ↔
        caps.supportsElicitation = true)) ∧
    (¬(List.any providers (fun p => p.x402Capable) = true ∧ caps.supportsX402 = true) →
      caps.supportsElicitation = false →
      resolveAutoMode providers caps = Mode.RESUBMIT ∧
        resolveAutoMode providers caps ≠ Mode.X402) ∧
    (autoResolve providers caps store).2 = store := by
  cases hx : List.any providers (fun p => p.x402Capable) <;>
    cases hcx : caps.supportsX402 <;>
      cases hce : caps.supportsElicitation <;>
        simp [resolveAutoMode, autoResolve, hx, hcx, hce]

/-- C3 witness: with one non-X402 provider and a caller advertising neither
x402 nor elicitation support, AUTO resolves to RESUBMIT and not to X402; the
same holds when an X402-capable provider is configured but the caller does
not advertise x402 support. -/
theorem autoMode_resolution_witness :
    (resolveAutoMode [{ name := "stripe", x402Capable := false }]
        { supportsX402 := false, supportsElicitation := false } = Mode.RESUBMIT ∧
      resolveAutoMode [{ name := "stripe", x402Capable := false }]
        { supportsX402 := false, supportsElicitation := false } ≠ Mode.X402) ∧
    (resolveAutoMode [{ name := "x402", x402Capable := true }]
        { supportsX402 := false, supportsElicitation := false } = Mode.RESUBMIT ∧
      resolveAutoMode [{ name := "x402", x402Capable := true }]
        { supportsX402 := false, supportsElicitation := false } ≠ Mode.X402) :=
  ⟨(autoMode_resolution [{ name := "stripe", x402Capable := false }]
      { supportsX402 := false, supportsElicitation := false } []).2.2.1
    (by decide) (by decide),
   (autoMode_resolution [{ name := "x402", x402Capable := true }]
      { supportsX402 := false, supportsElicitation := false } []).2.2.1
    (by decide) (by decide)⟩

/-- C1: in RESUBMIT mode a gated call with no payment reference creates the
payment, persists a `PendingInvocation` under the freshly generated
`paymentId`, and fails with a structured payment-required error carrying
`paymentUrl` and that `paymentId`, without executing the body; a second call
to the same tool with the same arguments supplying that `paymentId`, once
the provider reports `paid`, executes the original tool body and returns its
computed result. -/
theorem resubmit_flow (prov : Provider) (toolName : String) (amount : Rat)
    (currency : String) (body : Args → String) (args : Args)
    (store : MemoryStateStore) (pid url : String)
    (hcreate : prov.createPayment amount currency toolName = (pid, url))
    (hpaid : prov.getPaymentStatus pid = ProviderStatus.paid) :
    (resubmitCall prov toolName amount currency body args none store).outcome =
      CallOutcome.paymentRequired url pid ∧
    (resubmitCall prov toolName amount currency body args none store).execCount = 0 ∧
    memGet (resubmitCall prov toolName amount currency body args none store).store pid =
      some (mkPending pid toolName args amount currency Mode.RESUBMIT "") ∧
    (resubmitCall prov toolName amount currency body args (some pid)
        (resubmitCall prov toolName amount currency body args none store).store).outcome =
      CallOutcome.success (body args) ∧
    (resubmitCall prov toolName amount currency body args (some pid)
        (resubmitCall prov toolName amount currency body args none store).store).execCount = 1 := by
  have hstore : (resubmitCall prov toolName amount currency body args none store).store =
      memPut store pid (mkPending pid toolName args amount currency Mode.RESUBMIT "") := by
    simp [resubmitCall, hcreate]
  refine ⟨?_, ?_, ?_, ?_, ?_⟩
  · simp [resubmitCall, hcreate]
  · simp [resubmitCall, hcreate]
  · rw [hstore]
    exact memGet_memPut_same store pid _
  · rw [hstore]
    simp [resubmitCall, memGet_memPut_same, mkPending, hpaid]
  · rw [hstore]
    simp [resubmitCall, memGet_memPut_same, mkPending, hpaid]

/-- C1 witness: the documented scenario — a tool priced at `1 USD`, first
call with `prompt = "a dog"` persists state and returns payment-required
with `paymentUrl` and `paymentId`, second call with the `paymentId` against
a provider stub reporting `paid` returns the tool's computed result. -/
theorem resubmit_flow_witness :
    (resubmitCall stubProviderPaid "generate_image" 1 "USD" demoBody demoArgs none
        memEmpty).outcome =
      CallOutcome.paymentRequired "https://pay.example/c/pay_1" "pay_1" ∧
    (resubmitCall stubProviderPaid "generate_image" 1 "USD" demoBody demoArgs (some "pay_1")
        (resubmitCall stubProviderPaid "generate_image" 1 "USD" demoBody demoArgs none
          memEmpty).store).outcome =
      CallOutcome.success "Image generated for: a dog" := by
  have h := resubmit_flow stubProviderPaid "generate_image" 1 "USD" demoBody demoArgs
    memEmpty "pay_1" "https://pay.example/c/pay_1" rfl rfl
  exact ⟨h.1, h.2.2.2.1⟩

/-- C6: in RESUBMIT mode a resubmission whose `paymentId` has no stored
record, or whose stored record is for a different tool or a different
argument fingerprint, or whose stored record is already terminal, fails with
`InvalidPaymentReference` and never executes the original tool body. -/
theorem resubmit_invalidReference (prov : Provider) (toolName : String)
    (amount : Rat) (currency : String) (body : Args → String) (args : Args)
    (store : MemoryStateStore) (pid : String) :
    (memGet store pid = none →
      resubmitCall prov toolName amount currency body args (some pid) store =
        { outcome := CallOutcome.invalidPaymentReference, store := store, execCount := 0 }) ∧
    (∀ pinv : PendingInvocation, memGet store pid = some pinv →
      (pinv.toolName ≠ toolName ∨ argFingerprint pinv.args ≠ argFingerprint args ∨
        pinv.status.isTerminal = true) →
      resubmitCall prov toolName amount currency body args (some pid) store =
        { outcome := CallOutcome.invalidPaymentReference, store := store, execCount := 0 }) := by
  constructor
  · intro h
    simp [resubmitCall, h]
  · intro pinv h hbad
    have hcond : ¬(pinv.toolName = toolName ∧ argFingerprint pinv.args = argFingerprint args ∧
        pinv.status = RecordStatus.pending) := by
      rcases hbad with h1 | h1 | h1
      · exact fun hc => h1 hc.1
      · exact fun hc => h1 hc.2.1
      · intro hc
        rw [hc.2.2] at h1
        simp [RecordStatus.isTerminal] at h1
    simp [resubmitCall, h, hcond]

/-- C6 witness: resubmitting `pay_1` against an already-confirmed record for
the same tool and arguments fails with `InvalidPaymentReference`, and
resubmitting against an empty store does too. -/
theorem resubmit_invalidReference_witness :
    (resubmitCall stubProviderPaid "generate_image" 1 "USD" demoBody demoArgs (some "pay_1")
        (memPut memEmpty "pay_1" (markConfirmed demoRecord "r"))).outcome =
      CallOutcome.invalidPaymentReference ∧
    (resubmitCall stubProviderPaid "generate_image" 1 "USD" demoBody demoArgs (some "pay_1")
        memEmpty).outcome =
      CallOutcome.invalidPaymentReference := by
  have h1 := (resubmit_invalidReference stubProviderPaid "generate_image" 1 "USD" demoBody
    demoArgs (memPut memEmpty "pay_1" (markConfirmed demoRecord "r")) "pay_1").2
    (markConfirmed demoRecord "r") (memGet_memPut_same memEmpty "pay_1" _)
    (Or.inr (Or.inr rfl))
  have h2 := (resubmit_invalidReference stubProviderPaid "generate_image" 1 "USD" demoBody
    demoArgs memEmpty "pay_1").1 rfl
  exact ⟨by rw [h1], by rw [h2]⟩

/-- C2: in TWO_STEP mode the synthesized confirmation tool never executes
the original body while `getPaymentStatus` reports `pending` — it reports
not-yet-paid with no side effects — and once the status is `paid`, exactly
one subsequent confirmation call executes the original body: the first
confirmation executes it and a repeat confirmation does not. -/
theorem twoStep_confirmation (prov : Provider) (body : Args → String) (pid : String)
    (store : MemoryStateStore) (pinv : PendingInvocation)
    (hget : memGet store pid = some pinv)
    (hpending : pinv.status = RecordStatus.pending) :
    (prov.getPaymentStatus pid = ProviderStatus.pending →
      twoStepConfirm prov body pid store =
        { outcome := CallOutcome.notYetPaid, store := store, execCount := 0 }) ∧
    (prov.getPaymentStatus pid = ProviderStatus.paid →
      (twoStepConfirm prov body pid store).execCount = 1 ∧
      (twoStepConfirm prov body pid store).outcome = CallOutcome.success (body pinv.args) ∧
      (twoStepConfirm prov body pid (twoStepConfirm prov body pid store).store).execCount = 0) := by
  constructor
  · intro h
    simp [twoStepConfirm, hget, hpending, h]
  · intro h
    have h1 : twoStepConfirm prov body pid store =
        { outcome := CallOutcome.success (body pinv.args)
          store := memPut store pid (markConfirmed pinv (body pinv.args))
          execCount := 1 } := by
      simp [twoStepConfirm, hget, hpending, h]
    refine ⟨by rw [h1], by rw [h1], ?_⟩
    rw [h1]
    simp [twoStepConfirm, memGet_memPut_same, markConfirmed]

/-- C2 witness: with a pending record for `pay_1`, a pending provider stub
yields not-yet-paid with the store unchanged and no execution; with a paid
provider stub the first confirmation executes the body once and a repeat
confirmation executes nothing. -/
theorem twoStep_confirmation_witness :
    (twoStepConfirm stubProviderPending demoBody "pay_1"
        (memPut memEmpty "pay_1" demoTwoStepRecord)).execCount = 0 ∧
    (twoStepConfirm stubProviderPaid demoBody "pay_1"
        (memPut memEmpty "pay_1" demoTwoStepRecord)).execCount = 1 ∧
    (twoStepConfirm stubProviderPaid demoBody "pay_1"
        (twoStepConfirm stubProviderPaid demoBody "pay_1"
          (memPut memEmpty "pay_1" demoTwoStepRecord)).store).execCount = 0 := by
  have hpend := (twoStep_confirmation stubProviderPending demoBody "pay_1"
    (memPut memEmpty "pay_1" demoTwoStepRecord) demoTwoStepRecord
    (memGet_memPut_same memEmpty "pay_1" _) rfl).1 rfl
  have hpaid := (twoStep_confirmation stubProviderPaid demoBody "pay_1"
    (memPut memEmpty "pay_1" demoTwoStepRecord) demoTwoStepRecord
    (memGet_memPut_same memEmpty "pay_1" _) rfl).2 rfl
  exact ⟨by rw [hpend], hpaid.1, hpaid.2.2⟩

/-- C9: finalization is idempotent under two racing finalization attempts on
the same `paymentId` (per-key store operations are atomic, so the race is an
interleaving): the first caller to observe the pending-to-confirmed
transition executes the tool body, and the second caller, observing the
already-terminal record, receives the previously stored result as an
`AlreadyProcessed` indicator and does not re-execute the body. -/
theorem finalization_idempotent (prov : Provider) (body : Args → String)
    (pid : String) (store : MemoryStateStore) (pinv : PendingInvocation)
    (hget : memGet store pid = some pinv)
    (hpending : pinv.status = RecordStatus.pending)
    (hpaid : prov.getPaymentStatus pid = ProviderStatus.paid) :
    (twoStepConfirm prov body pid store).execCount = 1 ∧
    (twoStepConfirm prov body pid store).outcome = CallOutcome.success (body pinv.args) ∧
    (twoStepConfirm prov body pid (twoStepConfirm prov body pid store).store).outcome =
      CallOutcome.alreadyProcessed (body pinv.args) ∧
    (twoStepConfirm prov body pid (twoStepConfirm prov body pid store).store).execCount = 0 := by
  have h1 : twoStepConfirm prov body pid store =
      { outcome := CallOutcome.success (body pinv.args)
        store := memPut store pid (markConfirmed pinv (body pinv.args))
        execCount := 1 } := by
    simp [twoStepConfirm, hget, hpending, hpaid]
  refine ⟨by rw [h1], by rw [h1], ?_, ?_⟩
  · rw [h1]
    simp [twoStepConfirm, memGet_memPut_same, markConfirmed]
  · rw [h1]
    simp [twoStepConfirm, memGet_memPut_same, markConfirmed]

/-- C9 witness: duplicate confirmation of `pay_1` returns the previously
stored result as `AlreadyProcessed` without executing the body again. -/
theorem finalization_idempotent_witness :
    (twoStepConfirm stubProviderPaid demoBody "pay_1"
        (twoStepConfirm stubProviderPaid demoBody "pay_1"
          (memPut memEmpty "pay_1" demoTwoStepRecord)).store).outcome =
      CallOutcome.alreadyProcessed "Image generated for: a dog" := by
  have h := (finalization_idempotent stubProviderPaid demoBody "pay_1"
    (memPut memEmpty "pay_1" demoTwoStepRecord) demoTwoStepRecord
    (memGet_memPut_same memEmpty "pay_1" _) rfl rfl).2.2.1
  exact h

/-- C5: in X402 mode the engine accepts the payment signature from either
the header-like field or the metadata field (the two deliveries behave
identically); a signature that verifies and settles through the facilitator
leads to exactly one execution of the tool body; a resubmission whose
signature fails verification never executes the body, fails terminally with
`PaymentVerificationFailed`, and a retry with the same signature fails with
`InvalidPaymentReference` without executing the body. -/
theorem x402_signatureHandling (fac : Facilitator) (toolName : String)
    (body : Args → String) (args : Args) (pid sig : String)
    (store : MemoryStateStore) (pinv : PendingInvocation)
    (hget : memGet store pid = some pinv)
    (htool : pinv.toolName = toolName)
    (hfp : argFingerprint pinv.args = argFingerprint args)
    (hpending : pinv.status = RecordStatus.pending) :
    (x402Resubmit fac toolName body args pid (some sig) none store =
      x402Resubmit fac toolName body args pid none (some sig) store) ∧
    (fac.verify sig = true → fac.settle sig = true →
      (x402Resubmit fac toolName body args pid (some sig) none store).outcome =
        CallOutcome.success (body args) ∧
      (x402Resubmit fac toolName body args pid (some sig) none store).execCount = 1) ∧
    (fac.verify sig = false →
      (x402Resubmit fac toolName body args pid (some sig) none store).outcome =
        CallOutcome.paymentVerificationFailed ∧
      (x402Resubmit fac toolName body args pid (some sig) none store).execCount = 0 ∧
      (x402Resubmit fac toolName body args pid (some sig) none
          (x402Resubmit fac toolName body args pid (some sig) none store).store).outcome =
        CallOutcome.invalidPaymentReference ∧
      (x402Resubmit fac toolName body args pid (some sig) none
          (x402Resubmit fac toolName body args pid (some sig) none store).store).execCount =
        0) := by
  refine ⟨rfl, ?_, ?_⟩
  · intro hv hs
    constructor <;> simp [x402Resubmit, pickSignature, hget, htool, hfp, hpending, hv, hs]
  · intro hv
    have h1 : x402Resubmit fac toolName body args pid (some sig) none store =
        { outcome := CallOutcome.paymentVerificationFailed
          store := memPut store pid (setStatus pinv RecordStatus.failed)
          execCount := 0 } := by
      simp [x402Resubmit, pickSignature, hget, htool, hfp, hpending, hv]
    refine ⟨by rw [h1], by rw [h1], ?_, ?_⟩ <;>
      rw [h1] <;>
        simp [x402Resubmit, pickSignature, memGet_memPut_same, setStatus]

/-- C5 witness: against a pending X402 record for `pay_1`, the signature
`sig_good` delivered in the header field executes the body, delivering it in
the metadata field behaves identically, and the cryptographically invalid
signature `sig_bad` yields `PaymentVerificationFailed` with no execution and
cannot be retried. -/
theorem x402_signatureHandling_witness :
    (x402Resubmit stubFacilitator "generate_image" demoBody demoArgs "pay_1"
        (some "sig_good") none (memPut memEmpty "pay_1" demoX402Record)).outcome =
      CallOutcome.success "Image generated for: a dog" ∧
    x402Resubmit stubFacilitator "generate_image" demoBody demoArgs "pay_1"
        (some "sig_bad") none (memPut memEmpty "pay_1" demoX402Record) =
      x402Resubmit stubFacilitator "generate_image" demoBody demoArgs "pay_1"
        none (some "sig_bad") (memPut memEmpty "pay_1" demoX402Record) ∧
    (x402Resubmit stubFacilitator "generate_image" demoBody demoArgs "pay_1"
        (some "sig_bad") none (memPut memEmpty "pay_1" demoX402Record)).outcome =
      CallOutcome.paymentVerificationFailed ∧
    (x402Resubmit stubFacilitator "generate_image" demoBody demoArgs "pay_1"
        (some "sig_bad") none (memPut memEmpty "pay_1" demoX402Record)).execCount = 0 := by
  have hgood := (x402_signatureHandling stubFacilitator "generate_image" demoBody demoArgs
    "pay_1" "sig_good" (memPut memEmpty "pay_1" demoX402Record) demoX402Record
    (memGet_memPut_same memEmpty "pay_1" _) rfl rfl rfl).2.1 (by decide) rfl
  have hbad := x402_signatureHandling stubFacilitator "generate_image" demoBody demoArgs
    "pay_1" "sig_bad" (memPut memEmpty "pay_1" demoX402Record) demoX402Record
    (memGet_memPut_same memEmpty "pay_1" _) rfl rfl rfl
  exact ⟨hgood.1, hbad.1, (hbad.2.2 (by decide)).1, (hbad.2.2 (by decide)).2.1⟩

/-- C10: for the Coinbase Commerce provider, `confirmOnPending = true` makes
the engine treat a provider charge status of `PENDING` as paid — a gated
confirmation executes the tool body before the payment is terminally paid —
while with `confirmOnPending = false` (also the default when the option is
omitted) the engine keeps waiting on `PENDING`. -/
theorem coinbase_confirmOnPending (apiKey : String)
    (rawStatus : String → CoinbaseChargeStatus)
    (charge : Rat → String → String → String × String)
    (body : Args → String) (pid : String) (store : MemoryStateStore)
    (pinv : PendingInvocation)
    (hget : memGet store pid = some pinv)
    (hpending : pinv.status = RecordStatus.pending)
    (hraw : rawStatus pid = CoinbaseChargeStatus.PENDING) :
    coinbaseStatusToProvider true CoinbaseChargeStatus.PENDING = ProviderStatus.paid ∧
    coinbaseStatusToProvider false CoinbaseChargeStatus.PENDING = ProviderStatus.pending ∧
    ProviderStatus.isTerminal (coinbaseStatusToProvider false CoinbaseChargeStatus.PENDING) =
      false ∧
    (mkCoinbaseConfig apiKey none).confirmOnPending = false ∧
    (twoStepConfirm (coinbaseProvider { apiKey := apiKey, confirmOnPending := true }
        rawStatus charge) body pid store).execCount = 1 ∧
    (twoStepConfirm (coinbaseProvider (mkCoinbaseConfig apiKey none) rawStatus charge)
        body pid store).outcome = CallOutcome.notYetPaid ∧
    (twoStepConfirm (coinbaseProvider (mkCoinbaseConfig apiKey none) rawStatus charge)
        body pid store).execCount = 0 := by
  refine ⟨rfl, rfl, rfl, rfl, ?_, ?_, ?_⟩ <;>
    simp [twoStepConfirm, coinbaseProvider, coinbaseStatusToProvider, mkCoinbaseConfig,
      hget, hpending, hraw]

/-- C10 witness: with a pending record for `pay_1` and the Coinbase charge
reported as `PENDING`, `confirmOnPending = true` executes the body while the
default configuration reports not-yet-paid. -/
theorem coinbase_confirmOnPending_witness :
    (twoStepConfirm (coinbaseProvider { apiKey := "k", confirmOnPending := true }
        (fun _ => CoinbaseChargeStatus.PENDING) stubCreate) demoBody "pay_1"
        (memPut memEmpty "pay_1" demoTwoStepRecord)).execCount = 1 ∧
    (twoStepConfirm (coinbaseProvider (mkCoinbaseConfig "k" none)
        (fun _ => CoinbaseChargeStatus.PENDING) stubCreate) demoBody "pay_1"
        (memPut memEmpty "pay_1" demoTwoStepRecord)).outcome = CallOutcome.notYetPaid := by
  have h := coinbase_confirmOnPending "k" (fun _ => CoinbaseChargeStatus.PENDING) stubCreate
    demoBody "pay_1" (memPut memEmpty "pay_1" demoTwoStepRecord) demoTwoStepRecord
    (memGet_memPut_same memEmpty "pay_1" _) rfl rfl
  exact ⟨h.2.2.2.2.1, h.2.2.2.2.2.1⟩

/-! ## PROGRESS polling lemmas -/

theorem progressLoop_neverTerminal (statusAt : Nat → ProviderStatus)
    (cancelAt : Nat → Bool) (body : Args → String) (pid : String) (args : Args) :
    ∀ fuel tick store,
    (∀ i, i < fuel → statusAt (tick + i) = ProviderStatus.pending ∧
      cancelAt (tick + i) = false) →
    progressLoop statusAt cancelAt body pid args fuel tick store =
      { outcome := CallOutcome.paymentTimeout, store := markExpired store pid
        execCount := 0, polls := fuel } := by
  intro fuel
  induction fuel with
  | zero =>
      intro tick store _
      rfl
  | succ n ih =>
      intro tick store h
      have h0 := h 0 (Nat.succ_pos n)
      rw [Nat.add_zero] at h0
      have hrec := ih (tick + 1) store (fun i hi => by
        have h' := h (i + 1) (by omega)
        have e : tick + (i + 1) = tick + 1 + i := by omega
        rwa [e] at h')
      simp [progressLoop, h0.1, h0.2, hrec]

theorem progressLoop_stops (statusAt : Nat → ProviderStatus) (cancelAt : Nat → Bool)
    (body : Args → String) (pid : String) (args : Args) :
    ∀ k fuel tick store, k < fuel →
    (∀ i, i < k → statusAt (tick + i) = ProviderStatus.pending ∧
      cancelAt (tick + i) = false) →
    (cancelAt (tick + k) = false → ProviderStatus.isTerminal (statusAt (tick + k)) = true →
      (progressLoop statusAt cancelAt body pid args fuel tick store).polls = k + 1) ∧
    (cancelAt (tick + k) = true →
      (progressLoop statusAt cancelAt body pid args fuel tick store).polls = k ∧
      (progressLoop statusAt cancelAt body pid args fuel tick store).outcome =
        CallOutcome.paymentCancelled) := by
  intro k
  induction k with
  | zero =>
      intro fuel tick store hk h
      obtain ⟨f, rfl⟩ : ∃ f, fuel = f + 1 := ⟨fuel - 1, by omega⟩
      constructor
      · intro hc ht
        rw [Nat.add_zero] at hc ht
        cases hst : statusAt tick <;> rw [hst] at ht <;>
          simp [ProviderStatus.isTerminal] at ht <;>
            simp [progressLoop, hc, hst]
      · intro hc
        rw [Nat.add_zero] at hc
        simp [progressLoop, hc]
  | succ n ih =>
      intro fuel tick store hk h
      obtain ⟨f, rfl⟩ : ∃ f, fuel = f + 1 := ⟨fuel - 1, by omega⟩
      have h0 := h 0 (Nat.succ_pos n)
      rw [Nat.add_zero] at h0
      have hshift : ∀ i, i < n → statusAt (tick + 1 + i) = ProviderStatus.pending ∧
          cancelAt (tick + 1 + i) = false := fun i hi => by
        have h' := h (i + 1) (by omega)
        have e : tick + (i + 1) = tick + 1 + i := by omega
        rwa [e] at h'
      have hrec := ih f (tick + 1) store (by omega) hshift
      have e : tick + (n + 1) = tick + 1 + n := by omega
      constructor
      · intro hc ht
        rw [e] at hc ht
        have hp := hrec.1 hc ht
        simp [progressLoop, h0.1, h0.2, hp]
      · intro hc
        rw [e] at hc
        have hp := hrec.2 hc
        simp [progressLoop, h0.1, h0.2, hp.1, hp.2]

/-- C8: in PROGRESS mode, if the payment status never becomes terminal and
the caller never cancels before the caller's timeout elapses, the call fails
with `PaymentTimeout`, the `PendingInvocation` ends in status `expired` —
never `confirmed` — and the tool body is never executed; and polling stops
immediately: at the first tick with a terminal status exactly that many
polls have been issued, and a caller cancellation stops polling at once. -/
theorem progress_timeoutExpiry (statusAt : Nat → ProviderStatus)
    (cancelAt : Nat → Bool) (body : Args → String) (pid : String) (args : Args)
    (timeout : Nat) (store : MemoryStateStore) (pinv : PendingInvocation)
    (hget : memGet store pid = some pinv) :
    ((∀ i, i < timeout → statusAt i = ProviderStatus.pending ∧ cancelAt i = false) →
      (progressLoop statusAt cancelAt body pid args timeout 0 store).outcome =
        CallOutcome.paymentTimeout ∧
      memGet (progressLoop statusAt cancelAt body pid args timeout 0 store).store pid =
        some (setStatus pinv RecordStatus.expired) ∧
      (setStatus pinv RecordStatus.expired).status ≠ RecordStatus.confirmed ∧
      (progressLoop statusAt cancelAt body pid args timeout 0 store).execCount = 0) ∧
    (∀ k, k < timeout →
      (∀ i, i < k → statusAt i = ProviderStatus.pending ∧ cancelAt i = false) →
      (cancelAt k = false → ProviderStatus.isTerminal (statusAt k) = true →
        (progressLoop statusAt cancelAt body pid args timeout 0 store).polls = k + 1) ∧
      (cancelAt k = true →
        (progressLoop statusAt cancelAt body pid args timeout 0 store).polls = k)) := by
  constructor
  · intro hnever
    have h := progressLoop_neverTerminal statusAt cancelAt body pid args timeout 0 store
      (fun i hi => by simpa using hnever i hi)
    rw [h]
    refine ⟨rfl, ?_, by simp [setStatus], rfl⟩
    simp [markExpired, hget, memGet_memPut_same]
  · intro k hk hbefore
    have h := progressLoop_stops statusAt cancelAt body pid args k timeout 0 store hk
      (fun i hi => by simpa using hbefore i hi)
    exact ⟨fun hc ht => h.1 (by simpa using hc) (by simpa using ht),
      fun hc => (h.2 (by simpa using hc)).1⟩

/-- C8 witness: with a pending record for `pay_1`, a status stream that
never leaves `pending` and a caller that never cancels, a three-tick timeout
fails with `PaymentTimeout`, marks the record `expired` and never executes
the body; and with a stream turning `paid` at the third tick, polling stops
after exactly three polls. -/
theorem progress_timeoutExpiry_witness :
    (progressLoop stubAlwaysPending stubNoCancel demoBody "pay_1" demoArgs 3 0
        (memPut memEmpty "pay_1" demoProgressRecord)).outcome =
      CallOutcome.paymentTimeout ∧
    memGet (progressLoop stubAlwaysPending stubNoCancel demoBody "pay_1" demoArgs 3 0
        (memPut memEmpty "pay_1" demoProgressRecord)).store "pay_1" =
      some (setStatus demoProgressRecord RecordStatus.expired) ∧
    (progressLoop stubAlwaysPending stubNoCancel demoBody "pay_1" demoArgs 3 0
        (memPut memEmpty "pay_1" demoProgressRecord)).execCount = 0 ∧
    (progressLoop stubPaidAtTwo stubNoCancel demoBody "pay_1" demoArgs 5 0
        (memPut memEmpty "pay_1" demoProgressRecord)).polls = 3 := by
  have h1 := (progress_timeoutExpiry stubAlwaysPending stubNoCancel demoBody "pay_1"
    demoArgs 3 (memPut memEmpty "pay_1" demoProgressRecord) demoProgressRecord
    (memGet_memPut_same memEmpty "pay_1" _)).1
    (fun i _ => ⟨rfl, rfl⟩)
  have h2 := ((progress_timeoutExpiry stubPaidAtTwo stubNoCancel demoBody "pay_1"
    demoArgs 5 (memPut memEmpty "pay_1" demoProgressRecord) demoProgressRecord
    (memGet_memPut_same memEmpty "pay_1" _)).2 2 (by decide)
    (by decide)).1 rfl (by decide)
  exact ⟨h1.1, h1.2.1, h1.2.2.2, h2⟩

end PayMCP
